import Mathlib

/-!
Shallow embedding of the phone-shop back-office system
(`phone_shop_system/main.py`, `phone_shop_system/models.py`).

Conventions of the embedding:
- SQLAlchemy tables become Lean lists held in a `State` record; a row's
  autoincrement primary key is modelled as `length + 1` at insertion time
  (the system never deletes rows, so this matches SQLite autoincrement).
- Python `float` money fields are modelled as `Rat`; Python `int` as `Int`.
- Nullable columns / `data.get(...)` results are `Option`.
- `datetime` values are abstracted to a `Nat` day stamp; the SQL
  `db.func.date(created_at) == today` comparison becomes equality of day
  stamps.
- Flask's `session` is a `Session` record; all modelled endpoints run
  behind `login_required`, which guarantees `user_id` is present, so
  `Session.user_id` is a plain `Nat`.
- SQL `ORDER BY` clauses on read endpoints only permute the result set and
  are irrelevant to every claim about membership, so list results are
  returned in storage order.
-/

namespace PhoneShop

/-- Python `str.zfill(n)`: left-pad with zeros to at least `n` characters
(the inputs used here are decimal digit strings of positive numbers, so the
sign-handling branch of CPython's zfill never fires). -/
def zfill (n : Nat) (s : String) : String :=
  if n ≤ s.length then s
  else String.mk (List.replicate (n - s.length) '0') ++ s

/-- The business-number format used at every creation site in `main.py`:
`f"{PFX}-{str(10001 + count).zfill(5)}"`. -/
def nextBusinessNumber (pfx : String) (count : Nat) : String :=
  pfx ++ "-" ++ zfill 5 (Nat.repr (10001 + count))

/-- `models.User` (columns relevant to behaviour). -/
structure User where
  id : Nat
  username : String
  password_hash : String
  pin : Option String
  name : Option String
  phone : Option String
  role : String
  is_active : Bool
deriving Repr, DecidableEq

/-- `User.can_view_all_leads`. -/
def User.can_view_all_leads (u : User) : Bool :=
  u.role = "owner" || u.role = "manager"

/-- `User.can_assign_leads`. -/
def User.can_assign_leads (u : User) : Bool :=
  u.role = "owner" || u.role = "manager"

/-- `User.can_delete_records`. -/
def User.can_delete_records (u : User) : Bool :=
  u.role = "owner"

/-- `User.can_view_profits`. -/
def User.can_view_profits (u : User) : Bool :=
  u.role = "owner"

/-- `User.can_view_staff_metrics`. -/
def User.can_view_staff_metrics (u : User) : Bool :=
  u.role = "owner" || u.role = "manager"

/-- `User.can_manage_staff`. -/
def User.can_manage_staff (u : User) : Bool :=
  u.role = "owner"

/-- `User.can_view_all_deliveries`. -/
def User.can_view_all_deliveries (u : User) : Bool :=
  u.role = "owner" || u.role = "manager"

/-- `User.can_access_settings`. -/
def User.can_access_settings (u : User) : Bool :=
  u.role = "owner"

/-- The Flask session as seen by endpoints behind `login_required`:
`user_id`, `name` and `role` are set at login. -/
structure Session where
  user_id : Nat
  name : Option String
  role : String
  ip : Option String
deriving Repr, DecidableEq

/-- `models.ActivityLog` row. -/
structure Activity where
  id : Nat
  user_id : Nat
  user_name : Option String
  action : String
  entity_type : Option String
  entity_id : Option Nat
  details : Option String
  ip_address : Option String
deriving Repr, DecidableEq

/-- `models.Lead` (columns set by `add_lead`). -/
structure Lead where
  id : Nat
  lead_number : String
  customer_name : Option String
  customer_phone : Option String
  customer_email : Option String
  interest : Option String
  source : Option String
  status : String
  notes : Option String
  created_by : Nat
  assigned_to : Nat
  created_day : Nat
deriving Repr, DecidableEq

/-- `models.TradeIn` (columns set by `submit_tradein`). -/
structure TradeIn where
  id : Nat
  trade_in_number : String
  brand : Option String
  model : Option String
  storage : Option String
  color : Option String
  imei : Option String
  serial_number : Option String
  customer_name : Option String
  customer_phone : Option String
  customer_email : Option String
  base_value : Rat
  condition_score : Int
  calculated_offer : Rat
  status : String
  created_by : Nat
deriving Repr, DecidableEq

/-- `models.Sale` (columns set by `submit_sale`). -/
structure Sale where
  id : Nat
  sale_number : String
  product_id : Option Nat
  other_product_name : Option String
  quantity : Int
  unit_price : Rat
  cost_price : Rat
  total_price : Rat
  profit : Rat
  payment_method : Option String
  created_by : Nat
  created_day : Nat
deriving Repr, DecidableEq

/-- `models.Repair` (columns set by `submit_repair`). -/
structure Repair where
  id : Nat
  repair_number : String
  device_brand : Option String
  device_model : Option String
  device_serial : Option String
  customer_name : Option String
  customer_phone : Option String
  issue_description : Option String
  status : String
  created_by : Nat
deriving Repr, DecidableEq

/-- `models.Delivery` (columns read by `owner_dashboard`). -/
structure DeliveryRow where
  id : Nat
  status : String
deriving Repr, DecidableEq

/-- The durable store: one list per table touched by the modelled
endpoints. -/
structure State where
  users : List User
  leads : List Lead
  tradeins : List TradeIn
  sales : List Sale
  repairs : List Repair
  deliveries : List DeliveryRow
  activity_log : List Activity
deriving Repr, DecidableEq

def initState : State :=
  { users := [], leads := [], tradeins := [], sales := [], repairs := []
  , deliveries := [], activity_log := [] }

/-- `main.log_activity`: appends one ActivityLog row. Its guard
`if 'user_id' in session` always holds here because every modelled caller
runs behind `login_required`/`owner_required` with an authenticated
session. -/
def log_activity (s : State) (sess : Session) (action : String)
    (etype : Option String) (eid : Option Nat) (details : Option String) :
    State :=
  { s with activity_log := s.activity_log ++
      [{ id := s.activity_log.length + 1
       , user_id := sess.user_id
       , user_name := sess.name
       , action := action
       , entity_type := etype
       , entity_id := eid
       , details := details
       , ip_address := sess.ip }] }

/-- Form/JSON payload of `POST /leads/add`. -/
structure LeadInput where
  customer_name : Option String
  customer_phone : Option String
  customer_email : Option String
  interest : Option String
  source : Option String
  notes : Option String
deriving Repr, DecidableEq

/-- `add_lead` (POST branch): count-based `lead_number`, creator and
assignee both set from the session, then one `log_activity` call. -/
def add_lead (s : State) (sess : Session) (d : LeadInput) (day : Nat) :
    State × Lead :=
  let count := s.leads.length
  let lead : Lead :=
    { id := s.leads.length + 1
    , lead_number := nextBusinessNumber "LD" count
    , customer_name := d.customer_name
    , customer_phone := d.customer_phone
    , customer_email := d.customer_email
    , interest := d.interest
    , source := d.source
    , status := "new"
    , notes := d.notes
    , created_by := sess.user_id
    , assigned_to := sess.user_id
    , created_day := day }
  let s1 := { s with leads := s.leads ++ [lead] }
  (log_activity s1 sess "lead_created" (some "lead") (some lead.id)
      (some ("Lead " ++ lead.lead_number ++ " created")), lead)

/-- Payload of `POST /api/tradein`. -/
structure TradeInInput where
  brand : Option String
  model : Option String
  storage : Option String
  color : Option String
  imei : Option String
  serial_number : Option String
  customer_name : Option String
  customer_phone : Option String
  customer_email : Option String
  base_value : Rat
  condition_score : Int
  calculated_offer : Rat
deriving Repr, DecidableEq

/-- `submit_tradein`: count-based `trade_in_number`, initial status
`pending`, then one `log_activity` call. -/
def submit_tradein (s : State) (sess : Session) (d : TradeInInput) :
    State × TradeIn :=
  let count := s.tradeins.length
  let trade_in_number := nextBusinessNumber "TI" count
  let t : TradeIn :=
    { id := s.tradeins.length + 1
    , trade_in_number := trade_in_number
    , brand := d.brand
    , model := d.model
    , storage := d.storage
    , color := d.color
    , imei := d.imei
    , serial_number := d.serial_number
    , customer_name := d.customer_name
    , customer_phone := d.customer_phone
    , customer_email := d.customer_email
    , base_value := d.base_value
    , condition_score := d.condition_score
    , calculated_offer := d.calculated_offer
    , status := "pending"
    , created_by := sess.user_id }
  let s1 := { s with tradeins := s.tradeins ++ [t] }
  (log_activity s1 sess "tradein_created" (some "tradein") (some t.id)
      (some ("Trade-in " ++ trade_in_number ++ " created")), t)

/-- Payload of `POST /api/sale` (after the `int`/`float` parses with their
defaults). -/
structure SaleInput where
  product_id : Option Nat
  other_product_name : Option String
  quantity : Int
  unit_price : Rat
  cost_price : Rat
  payment_method : Option String
deriving Repr, DecidableEq

/-- `submit_sale`: count-based `sale_number`,
`total = quantity * unit_price`,
`profit = total - quantity * cost_price if cost_price else 0`
(Python float truthiness: `cost_price` is falsy exactly when it is zero),
then one `log_activity` call. -/
def submit_sale (s : State) (sess : Session) (d : SaleInput) (day : Nat) :
    State × Sale :=
  let count := s.sales.length
  let total : Rat := (d.quantity : Rat) * d.unit_price
  let profit : Rat :=
    if d.cost_price = 0 then 0 else total - (d.quantity : Rat) * d.cost_price
  let sale : Sale :=
    { id := s.sales.length + 1
    , sale_number := nextBusinessNumber "SL" count
    , product_id := d.product_id
    , other_product_name := d.other_product_name
    , quantity := d.quantity
    , unit_price := d.unit_price
    , cost_price := d.cost_price
    , total_price := total
    , profit := profit
    , payment_method := d.payment_method
    , created_by := sess.user_id
    , created_day := day }
  let s1 := { s with sales := s.sales ++ [sale] }
  (log_activity s1 sess "sale_created" (some "sale") (some sale.id)
      (some ("Sale " ++ sale.sale_number ++ " for $" ++ toString total)),
   sale)

/-- Payload of `POST /api/repair`. -/
structure RepairInput where
  brand : Option String
  model : Option String
  serial : Option String
  customer_name : Option String
  customer_phone : Option String
  issue_description : Option String
deriving Repr, DecidableEq

/-- `submit_repair`: count-based `repair_number`, initial status
`received`, then one `log_activity` call. -/
def submit_repair (s : State) (sess : Session) (d : RepairInput) :
    State × Repair :=
  let count := s.repairs.length
  let repair_number := nextBusinessNumber "RP" count
  let r : Repair :=
    { id := s.repairs.length + 1
    , repair_number := repair_number
    , device_brand := d.brand
    , device_model := d.model
    , device_serial := d.serial
    , customer_name := d.customer_name
    , customer_phone := d.customer_phone
    , issue_description := d.issue_description
    , status := "received"
    , created_by := sess.user_id }
  let s1 := { s with repairs := s.repairs ++ [r] }
  (log_activity s1 sess "repair_created" (some "repair") (some r.id)
      (some ("Repair " ++ repair_number ++ " created")), r)

/-- An HTTP-level error result (status code plus message), as produced by
the `jsonify({'error': ...}), code` returns in `main.py`. -/
structure HttpErr where
  code : Nat
  msg : String
deriving Repr, DecidableEq

/-- The 403 produced by the `owner_required` decorator. -/
def ownerForbidden : HttpErr := ⟨403, "Owner access required"⟩

/-- `login` (POST branch), after the route's `.strip()`/`.lower()` form
parsing: look up an active user by username
(`User.query.filter_by(username=username, is_active=True).first()`), then
accept when the non-empty password hashes to the stored hash, or else when
the non-empty PIN equals the stored PIN. Returns the logged-in user, or
`none` for the `Invalid credentials` page. `hashFn` abstracts
`hash_password` (SHA-256 hex digest). -/
def login (hashFn : String → String) (users : List User)
    (username password pin : String) : Option User :=
  match users.find? (fun u => u.username == username && u.is_active) with
  | none => none
  | some user =>
    let auth_valid : Bool :=
      if password ≠ "" ∧ user.password_hash = hashFn password then true
      else if pin ≠ "" ∧ user.pin = some pin then true
      else false
    if auth_valid then some user else none

/-- `leads_list` (`GET /leads`): all leads when `can_view_all_leads`,
otherwise only the leads created by the current user. -/
def leads_list (s : State) (u : User) : List Lead :=
  if u.can_view_all_leads then s.leads
  else s.leads.filter (fun l => decide (l.created_by = u.id))

/-- Result shape of `GET /api/dashboard-stats`; `profit_today := none`
models the key being absent from the JSON response. -/
structure Stats where
  sales_today : Rat
  sales_count : Nat
  pending_tradeins : Nat
  active_repairs : Nat
  profit_today : Option Rat
deriving Repr, DecidableEq

/-- `dashboard_stats` (`GET /api/dashboard-stats`): the owner branch sums
`s.profit for s in sales_today if s.profit` (float truthiness: skip zero
profits); manager and staff branches leave `total_profit = None`, so the
`profit_today` key is omitted from the response. -/
def dashboard_stats (s : State) (u : User) (today : Nat) : Stats :=
  if u.role = "owner" then
    let sales_today := s.sales.filter (fun x => decide (x.created_day = today))
    { sales_today := (sales_today.map Sale.total_price).sum
    , sales_count := sales_today.length
    , pending_tradeins :=
        (s.tradeins.filter (fun t => decide (t.status = "pending"))).length
    , active_repairs :=
        (s.repairs.filter (fun r => decide (r.status ≠ "completed"))).length
    , profit_today := some
        (((sales_today.filter (fun x => decide (x.profit ≠ 0))).map
            Sale.profit).sum) }
  else if u.role = "manager" then
    let sales_today := s.sales.filter (fun x => decide (x.created_day = today))
    { sales_today := (sales_today.map Sale.total_price).sum
    , sales_count := sales_today.length
    , pending_tradeins :=
        (s.tradeins.filter (fun t => decide (t.status = "pending"))).length
    , active_repairs :=
        (s.repairs.filter (fun r => decide (r.status ≠ "completed"))).length
    , profit_today := none }
  else
    let sales_today := s.sales.filter
      (fun x => decide (x.created_by = u.id ∧ x.created_day = today))
    { sales_today := (sales_today.map Sale.total_price).sum
    , sales_count := sales_today.length
    , pending_tradeins :=
        (s.tradeins.filter
          (fun t => decide (t.created_by = u.id ∧ t.status = "pending"))).length
    , active_repairs :=
        (s.repairs.filter
          (fun r => decide (r.created_by = u.id ∧ r.status ≠ "completed"))).length
    , profit_today := none }

/-- `staff_management` (`GET /staff`): behind `owner_required`; a
non-owner session gets the decorator's 403 before any query runs. -/
def staff_management (s : State) (sess : Session) :
    Except HttpErr (List User) :=
  if sess.role ≠ "owner" then .error ownerForbidden
  else .ok s.users

/-- Result shape of `GET /owner/dashboard` (the delivery counters and the
recent-activity feed; the per-staff SQL join aggregates are rendered into
the template and are not needed by any claim). -/
structure OwnerDash where
  pending_deliveries : Nat
  failed_deliveries : Nat
  recent_activities : List Activity
deriving Repr, DecidableEq

/-- `owner_dashboard` (`GET /owner/dashboard`): behind `owner_required`. -/
def owner_dashboard (s : State) (sess : Session) :
    Except HttpErr OwnerDash :=
  if sess.role ≠ "owner" then .error ownerForbidden
  else .ok
    { pending_deliveries :=
        (s.deliveries.filter (fun d => decide (d.status = "pending"))).length
    , failed_deliveries :=
        (s.deliveries.filter (fun d => decide (d.status = "failed"))).length
    , recent_activities := s.activity_log.reverse.take 50 }

/-- `activity_log_api` (`GET /api/activity-log`): behind `owner_required`;
pages the log newest-first. Returns the page items and the total count. -/
def activity_log_api (s : State) (sess : Session) (page per_page : Nat) :
    Except HttpErr (List Activity × Nat) :=
  if sess.role ≠ "owner" then .error ownerForbidden
  else .ok
    ((s.activity_log.reverse.drop ((page - 1) * per_page)).take per_page,
     s.activity_log.length)

/-- Form payload of `POST /staff/add` (role default `staff` applied at
parse time, as in `data.get('role', 'staff')`). -/
structure StaffInput where
  username : String
  password : String
  pin : Option String
  name : Option String
  phone : Option String
  role : String
deriving Repr, DecidableEq

/-- `add_staff` (`POST /staff/add`): behind `owner_required`; rejects an
already-taken (lowercased) username, otherwise creates the user and logs
one activity. -/
def add_staff (hashFn : String → String) (s : State) (sess : Session)
    (d : StaffInput) : State × Except HttpErr User :=
  if sess.role ≠ "owner" then (s, .error ownerForbidden)
  else
    match s.users.find? (fun u => u.username == d.username.toLower) with
    | some _ => (s, .error ⟨200, "Username already exists"⟩)
    | none =>
      let user : User :=
        { id := s.users.length + 1
        , username := d.username.toLower
        , password_hash := hashFn d.password
        , pin := d.pin
        , name := d.name
        , phone := d.phone
        , role := d.role
        , is_active := true }
      let s1 := { s with users := s.users ++ [user] }
      (log_activity s1 sess "staff_created" (some "user") (some user.id)
          (some ("Staff created with role " ++ user.role)),
       .ok user)

/-- `toggle_staff` (`POST /staff/<id>/toggle`): behind `owner_required`;
404 on an unknown id, 400 on the acting owner's own id, otherwise flips
`is_active` and logs one activity. Returns the new `is_active` value. -/
def toggle_staff (s : State) (sess : Session) (uid : Nat) :
    State × Except HttpErr Bool :=
  if sess.role ≠ "owner" then (s, .error ownerForbidden)
  else
    match s.users.find? (fun u => u.id == uid) with
    | none => (s, .error ⟨404, "Not Found"⟩)
    | some user =>
      if user.id = sess.user_id then
        (s, .error ⟨400, "Cannot deactivate yourself"⟩)
      else
        let users1 := s.users.map
          (fun v => if v.id = uid then { v with is_active := !v.is_active } else v)
        let s1 := { s with users := users1 }
        (log_activity s1 sess "staff_toggled" (some "user") (some user.id)
            (some (if !user.is_active then "activated" else "deactivated")),
         .ok (!user.is_active))

/-- One mutating request against the system: the four entity-creation
endpoints plus the two staff-management mutations. -/
inductive Op where
  | opLead (sess : Session) (d : LeadInput) (day : Nat)
  | opTradeIn (sess : Session) (d : TradeInInput)
  | opSale (sess : Session) (d : SaleInput) (day : Nat)
  | opRepair (sess : Session) (d : RepairInput)
  | opAddStaff (sess : Session) (d : StaffInput)
  | opToggleStaff (sess : Session) (uid : Nat)
deriving Repr

/-- The state reached after serving one mutating request. -/
def step (hashFn : String → String) (s : State) : Op → State
  | .opLead sess d day => (add_lead s sess d day).1
  | .opTradeIn sess d => (submit_tradein s sess d).1
  | .opSale sess d day => (submit_sale s sess d day).1
  | .opRepair sess d => (submit_repair s sess d).1
  | .opAddStaff sess d => (add_staff hashFn s sess d).1
  | .opToggleStaff sess uid => (toggle_staff s sess uid).1

/-- Serve a whole request trace. -/
def run (hashFn : String → String) (s : State) (ops : List Op) : State :=
  ops.foldl (step hashFn) s

/-! ### Workflow state machines (spec §4.3)

The repository under `src/` contains only the creation endpoints; no
status-transition endpoint ships in the source, so the transition tables
are modelled from the spec. -/

/-- Modelled from the spec: TradeIn statuses of §4.3 (the source only ever
stores the initial string `pending`). -/
inductive TIStatus where
  | pending | approved | rejected | paid_out
deriving Repr, DecidableEq

/-- Modelled from the spec: the TradeIn transition table
`pending → {approved, rejected}`; `approved → paid_out`. -/
def tiTable : TIStatus → TIStatus → Bool
  | .pending, .approved => true
  | .pending, .rejected => true
  | .approved, .paid_out => true
  | _, _ => false

/-- Modelled from the spec: Repair statuses of §4.3. -/
inductive RepStatus where
  | received | diagnosing | awaiting_parts | in_progress | completed | cancelled
deriving Repr, DecidableEq

/-- Modelled from the spec: the Repair transition table
`received → diagnosing → awaiting_parts|in_progress → completed`, and any
non-terminal state may move to `cancelled`. -/
def repTable : RepStatus → RepStatus → Bool
  | .received, .diagnosing => true
  | .diagnosing, .awaiting_parts => true
  | .diagnosing, .in_progress => true
  | .awaiting_parts, .completed => true
  | .in_progress, .completed => true
  | .received, .cancelled => true
  | .diagnosing, .cancelled => true
  | .awaiting_parts, .cancelled => true
  | .in_progress, .cancelled => true
  | _, _ => false

/-- Modelled from the spec: Lead statuses of §4.3. -/
inductive LeadStatus where
  | new | contacted | follow_up | converted | lost
deriving Repr, DecidableEq

/-- Modelled from the spec: the Lead transition table
`new → contacted → follow_up → {converted, lost}`, with `follow_up`
allowed to recur. -/
def leadTable : LeadStatus → LeadStatus → Bool
  | .new, .contacted => true
  | .contacted, .follow_up => true
  | .follow_up, .follow_up => true
  | .follow_up, .converted => true
  | .follow_up, .lost => true
  | _, _ => false

/-- Modelled from the spec: Delivery statuses of §4.3. -/
inductive DelStatus where
  | pending | out_for_delivery | completed | failed
deriving Repr, DecidableEq

/-- Modelled from the spec: the Delivery transition table
`pending → out_for_delivery → completed`, `failed` reachable from any
non-terminal state, no transition out of `completed` or `failed`. -/
def delTable : DelStatus → DelStatus → Bool
  | .pending, .out_for_delivery => true
  | .out_for_delivery, .completed => true
  | .pending, .failed => true
  | .out_for_delivery, .failed => true
  | _, _ => false

/-- Modelled from the spec: the common transition contract of §4.3 over an
entity's `(status, updated_at)` pair. A target is accepted when the table
allows it or when it equals the current status (the idempotent no-op
success of the contract); otherwise the request fails with
`InvalidTransition` and the entity is returned unchanged. -/
def transitionEntity {σ : Type} [DecidableEq σ] (table : σ → σ → Bool)
    (st : σ × Nat) (target : σ) (now : Nat) : (σ × Nat) × Option String :=
  if table st.1 target || st.1 == target then ((target, now), none)
  else (st, some "InvalidTransition")

/-! ### Structural lemmas about `step` -/

/-- Each request leaves the trade-in table unchanged, or appends exactly
one trade-in numbered from the table's size at request time. -/
theorem step_tradeins (hf : String → String) (s : State) (op : Op) :
    (step hf s op).tradeins = s.tradeins ∨
    ∃ t : TradeIn, (step hf s op).tradeins = s.tradeins ++ [t] ∧
      t.trade_in_number = nextBusinessNumber "TI" s.tradeins.length := by
  cases op with
  | opTradeIn sess d => exact Or.inr ⟨_, rfl, rfl⟩
  | opLead sess d day => exact Or.inl rfl
  | opSale sess d day => exact Or.inl rfl
  | opRepair sess d => exact Or.inl rfl
  | opAddStaff sess d =>
    left
    simp only [step, add_staff]
    split
    · rfl
    · split <;> simp [log_activity]
  | opToggleStaff sess uid =>
    left
    simp only [step, toggle_staff]
    split
    · rfl
    · split
      · rfl
      · split <;> simp [log_activity]

/-- Each request leaves the sales table unchanged, or appends exactly one
sale numbered from the table's size at request time. -/
theorem step_sales (hf : String → String) (s : State) (op : Op) :
    (step hf s op).sales = s.sales ∨
    ∃ x : Sale, (step hf s op).sales = s.sales ++ [x] ∧
      x.sale_number = nextBusinessNumber "SL" s.sales.length := by
  cases op with
  | opSale sess d day => exact Or.inr ⟨_, rfl, rfl⟩
  | opLead sess d day => exact Or.inl rfl
  | opTradeIn sess d => exact Or.inl rfl
  | opRepair sess d => exact Or.inl rfl
  | opAddStaff sess d =>
    left
    simp only [step, add_staff]
    split
    · rfl
    · split <;> simp [log_activity]
  | opToggleStaff sess uid =>
    left
    simp only [step, toggle_staff]
    split
    · rfl
    · split
      · rfl
      · split <;> simp [log_activity]

/-- Each request leaves the repairs table unchanged, or appends exactly
one repair numbered from the table's size at request time. -/
theorem step_repairs (hf : String → String) (s : State) (op : Op) :
    (step hf s op).repairs = s.repairs ∨
    ∃ r : Repair, (step hf s op).repairs = s.repairs ++ [r] ∧
      r.repair_number = nextBusinessNumber "RP" s.repairs.length := by
  cases op with
  | opRepair sess d => exact Or.inr ⟨_, rfl, rfl⟩
  | opLead sess d day => exact Or.inl rfl
  | opTradeIn sess d => exact Or.inl rfl
  | opSale sess d day => exact Or.inl rfl
  | opAddStaff sess d =>
    left
    simp only [step, add_staff]
    split
    · rfl
    · split <;> simp [log_activity]
  | opToggleStaff sess uid =>
    left
    simp only [step, toggle_staff]
    split
    · rfl
    · split
      · rfl
      · split <;> simp [log_activity]

/-- Each request leaves the leads table unchanged, or appends exactly one
lead numbered from the table's size at request time. -/
theorem step_leads (hf : String → String) (s : State) (op : Op) :
    (step hf s op).leads = s.leads ∨
    ∃ l : Lead, (step hf s op).leads = s.leads ++ [l] ∧
      l.lead_number = nextBusinessNumber "LD" s.leads.length := by
  cases op with
  | opLead sess d day => exact Or.inr ⟨_, rfl, rfl⟩
  | opTradeIn sess d => exact Or.inl rfl
  | opSale sess d day => exact Or.inl rfl
  | opRepair sess d => exact Or.inl rfl
  | opAddStaff sess d =>
    left
    simp only [step, add_staff]
    split
    · rfl
    · split <;> simp [log_activity]
  | opToggleStaff sess uid =>
    left
    simp only [step, toggle_staff]
    split
    · rfl
    · split
      · rfl
      · split <;> simp [log_activity]

/-- Extending a correctly numbered list by one element numbered from the
old length keeps every position correctly numbered. -/
theorem numbered_append {α : Type} (l : List α) (x : α) (f : α → String)
    (g : Nat → String)
    (hl : ∀ i (hi : i < l.length), f (l.get ⟨i, hi⟩) = g i)
    (hx : f x = g l.length) :
    ∀ i (hi : i < (l ++ [x]).length), f ((l ++ [x]).get ⟨i, hi⟩) = g i := by
  intro i hi
  have hi' : i < l.length + 1 := by simpa using hi
  rcases Nat.lt_or_ge i l.length with h1 | h1
  · rw [List.get_eq_getElem, List.getElem_append_left h1]
    exact hl i h1
  · have hie : i = l.length := by omega
    rw [List.get_eq_getElem, List.getElem_concat_length l x i hie]
    rw [hie]
    exact hx

/-- The numbering invariant for all four business-numbered tables: the
entity at position `i` carries the business number computed from count
`i`. -/
def NumbersOk (s : State) : Prop :=
  (∀ i (hi : i < s.tradeins.length),
      (s.tradeins.get ⟨i, hi⟩).trade_in_number = nextBusinessNumber "TI" i)
  ∧ (∀ i (hi : i < s.sales.length),
      (s.sales.get ⟨i, hi⟩).sale_number = nextBusinessNumber "SL" i)
  ∧ (∀ i (hi : i < s.repairs.length),
      (s.repairs.get ⟨i, hi⟩).repair_number = nextBusinessNumber "RP" i)
  ∧ (∀ i (hi : i < s.leads.length),
      (s.leads.get ⟨i, hi⟩).lead_number = nextBusinessNumber "LD" i)

theorem numbersOk_step (hf : String → String) (s : State) (op : Op)
    (h : NumbersOk s) : NumbersOk (step hf s op) := by
  obtain ⟨hti, hsl, hrp, hld⟩ := h
  refine ⟨?_, ?_, ?_, ?_⟩
  · rcases step_tradeins hf s op with he | ⟨t, he, hn⟩
    · rw [he]; exact hti
    · rw [he]; exact numbered_append _ t _ _ hti hn
  · rcases step_sales hf s op with he | ⟨x, he, hn⟩
    · rw [he]; exact hsl
    · rw [he]; exact numbered_append _ x _ _ hsl hn
  · rcases step_repairs hf s op with he | ⟨r, he, hn⟩
    · rw [he]; exact hrp
    · rw [he]; exact numbered_append _ r _ _ hrp hn
  · rcases step_leads hf s op with he | ⟨l, he, hn⟩
    · rw [he]; exact hld
    · rw [he]; exact numbered_append _ l _ _ hld hn

theorem numbersOk_run (hf : String → String) (ops : List Op) (s : State)
    (h : NumbersOk s) : NumbersOk (run hf s ops) := by
  induction ops generalizing s with
  | nil => exact h
  | cons op rest ih => exact ih (step hf s op) (numbersOk_step hf s op h)

theorem numbersOk_init : NumbersOk initState := by
  refine ⟨?_, ?_, ?_, ?_⟩ <;> intro i hi <;> simp [initState] at hi

theorem nextBusinessNumber_explicit (pfx : String) (c : Nat) :
    nextBusinessNumber pfx c = (pfx ++ "-") ++ zfill 5 (Nat.repr (10001 + c)) := by
  rw [nextBusinessNumber, String.append_assoc]

/-- C1: each creation endpoint assigns, when `n` entities of the type
already exist, the business number `<PREFIX>-` followed by the decimal
digits of `10001 + n` zero-padded to at least 5 digits (`TI`/`SL`/`RP`/`LD`
for trade-ins/sales/repairs/leads); consequently, over any request trace
from the empty store, the `i`-th created entity of a type carries numeric
part exactly `10001 + i`, so the first is `<PREFIX>-10001` and sequential
creations yield strictly increasing, gap-free numbers. -/
theorem business_numbers_sequential (hf : String → String) (ops : List Op) :
    (∀ (s : State) (sess : Session) (d : TradeInInput),
        (submit_tradein s sess d).2.trade_in_number =
          "TI-" ++ zfill 5 (Nat.repr (10001 + s.tradeins.length)))
  ∧ (∀ (s : State) (sess : Session) (d : SaleInput) (day : Nat),
        (submit_sale s sess d day).2.sale_number =
          "SL-" ++ zfill 5 (Nat.repr (10001 + s.sales.length)))
  ∧ (∀ (s : State) (sess : Session) (d : RepairInput),
        (submit_repair s sess d).2.repair_number =
          "RP-" ++ zfill 5 (Nat.repr (10001 + s.repairs.length)))
  ∧ (∀ (s : State) (sess : Session) (d : LeadInput) (day : Nat),
        (add_lead s sess d day).2.lead_number =
          "LD-" ++ zfill 5 (Nat.repr (10001 + s.leads.length)))
  ∧ (∀ i (hi : i < (run hf initState ops).tradeins.length),
        ((run hf initState ops).tradeins.get ⟨i, hi⟩).trade_in_number =
          "TI-" ++ zfill 5 (Nat.repr (10001 + i)))
  ∧ (∀ i (hi : i < (run hf initState ops).sales.length),
        ((run hf initState ops).sales.get ⟨i, hi⟩).sale_number =
          "SL-" ++ zfill 5 (Nat.repr (10001 + i)))
  ∧ (∀ i (hi : i < (run hf initState ops).repairs.length),
        ((run hf initState ops).repairs.get ⟨i, hi⟩).repair_number =
          "RP-" ++ zfill 5 (Nat.repr (10001 + i)))
  ∧ (∀ i (hi : i < (run hf initState ops).leads.length),
        ((run hf initState ops).leads.get ⟨i, hi⟩).lead_number =
          "LD-" ++ zfill 5 (Nat.repr (10001 + i))) := by
  obtain ⟨hti, hsl, hrp, hld⟩ := numbersOk_run hf ops initState numbersOk_init
  refine ⟨?_, ?_, ?_, ?_, ?_, ?_, ?_, ?_⟩
  · intro s sess d; exact nextBusinessNumber_explicit "TI" s.tradeins.length
  · intro s sess d day; exact nextBusinessNumber_explicit "SL" s.sales.length
  · intro s sess d; exact nextBusinessNumber_explicit "RP" s.repairs.length
  · intro s sess d day; exact nextBusinessNumber_explicit "LD" s.leads.length
  · intro i hi; rw [hti i hi]; exact nextBusinessNumber_explicit "TI" i
  · intro i hi; rw [hsl i hi]; exact nextBusinessNumber_explicit "SL" i
  · intro i hi; rw [hrp i hi]; exact nextBusinessNumber_explicit "RP" i
  · intro i hi; rw [hld i hi]; exact nextBusinessNumber_explicit "LD" i

theorem transitionEntity_invalid {σ : Type} [DecidableEq σ]
    (table : σ → σ → Bool) (st : σ × Nat) (target : σ) (now : Nat)
    (h : ¬(table st.1 target = true ∨ st.1 = target)) :
    transitionEntity table st target now = (st, some "InvalidTransition") := by
  rw [transitionEntity, if_neg]
  simp only [Bool.or_eq_true, beq_iff_eq]
  exact h

/-- C2: for each workflow entity type, a transition request whose target
status is not reachable from the current status per the §4.3 state tables
(and is not the idempotent same-status no-op) fails with
`InvalidTransition` and returns the entity's `status`/`updated_at` pair
unchanged. -/
theorem invalid_transition_rejected :
    (∀ (cur : TIStatus) (upd : Nat) (target : TIStatus) (now : Nat),
        ¬(tiTable cur target = true ∨ cur = target) →
        transitionEntity tiTable (cur, upd) target now =
          ((cur, upd), some "InvalidTransition"))
  ∧ (∀ (cur : RepStatus) (upd : Nat) (target : RepStatus) (now : Nat),
        ¬(repTable cur target = true ∨ cur = target) →
        transitionEntity repTable (cur, upd) target now =
          ((cur, upd), some "InvalidTransition"))
  ∧ (∀ (cur : LeadStatus) (upd : Nat) (target : LeadStatus) (now : Nat),
        ¬(leadTable cur target = true ∨ cur = target) →
        transitionEntity leadTable (cur, upd) target now =
          ((cur, upd), some "InvalidTransition"))
  ∧ (∀ (cur : DelStatus) (upd : Nat) (target : DelStatus) (now : Nat),
        ¬(delTable cur target = true ∨ cur = target) →
        transitionEntity delTable (cur, upd) target now =
          ((cur, upd), some "InvalidTransition")) :=
  ⟨fun cur upd target now h => transitionEntity_invalid tiTable (cur, upd) target now h,
   fun cur upd target now h => transitionEntity_invalid repTable (cur, upd) target now h,
   fun cur upd target now h => transitionEntity_invalid leadTable (cur, upd) target now h,
   fun cur upd target now h => transitionEntity_invalid delTable (cur, upd) target now h⟩

/-- C3: every successful mutating request appends exactly one activity
event whose `entity_type`/`entity_id` name the entity it created or
toggled, and every request (successful or not) extends the activity log by
append only — no existing event is updated or deleted, so the log never
shrinks. -/
theorem audit_one_event_per_mutation (hf : String → String) (s : State) :
    (∀ sess d day,
        (step hf s (.opLead sess d day)).leads = s.leads ++ [(add_lead s sess d day).2]
      ∧ ∃ e : Activity,
          (step hf s (.opLead sess d day)).activity_log = s.activity_log ++ [e]
        ∧ e.entity_type = some "lead" ∧ e.entity_id = some (add_lead s sess d day).2.id)
  ∧ (∀ sess d,
        (step hf s (.opTradeIn sess d)).tradeins = s.tradeins ++ [(submit_tradein s sess d).2]
      ∧ ∃ e : Activity,
          (step hf s (.opTradeIn sess d)).activity_log = s.activity_log ++ [e]
        ∧ e.entity_type = some "tradein" ∧ e.entity_id = some (submit_tradein s sess d).2.id)
  ∧ (∀ sess d day,
        (step hf s (.opSale sess d day)).sales = s.sales ++ [(submit_sale s sess d day).2]
      ∧ ∃ e : Activity,
          (step hf s (.opSale sess d day)).activity_log = s.activity_log ++ [e]
        ∧ e.entity_type = some "sale" ∧ e.entity_id = some (submit_sale s sess d day).2.id)
  ∧ (∀ sess d,
        (step hf s (.opRepair sess d)).repairs = s.repairs ++ [(submit_repair s sess d).2]
      ∧ ∃ e : Activity,
          (step hf s (.opRepair sess d)).activity_log = s.activity_log ++ [e]
        ∧ e.entity_type = some "repair" ∧ e.entity_id = some (submit_repair s sess d).2.id)
  ∧ (∀ sess d u, (add_staff hf s sess d).2 = .ok u →
        (step hf s (.opAddStaff sess d)).users = s.users ++ [u]
      ∧ ∃ e : Activity,
          (step hf s (.opAddStaff sess d)).activity_log = s.activity_log ++ [e]
        ∧ e.entity_type = some "user" ∧ e.entity_id = some u.id)
  ∧ (∀ sess uid b, (toggle_staff s sess uid).2 = .ok b →
        ∃ e : Activity,
          (step hf s (.opToggleStaff sess uid)).activity_log = s.activity_log ++ [e]
        ∧ e.entity_type = some "user" ∧ e.entity_id = some uid)
  ∧ (∀ op : Op, ∃ es : List Activity,
        (step hf s op).activity_log = s.activity_log ++ es) := by
  refine ⟨?_, ?_, ?_, ?_, ?_, ?_, ?_⟩
  · exact fun sess d day => ⟨rfl, ⟨_, rfl, rfl, rfl⟩⟩
  · exact fun sess d => ⟨rfl, ⟨_, rfl, rfl, rfl⟩⟩
  · exact fun sess d day => ⟨rfl, ⟨_, rfl, rfl, rfl⟩⟩
  · exact fun sess d => ⟨rfl, ⟨_, rfl, rfl, rfl⟩⟩
  · intro sess d u h
    by_cases hrole : sess.role = "owner"
    · have hne : ¬sess.role ≠ "owner" := by simp [hrole]
      cases hfind : s.users.find? (fun v => v.username == d.username.toLower) with
      | some w =>
        simp only [add_staff, if_neg hne, hfind] at h
        exact Except.noConfusion h
      | none =>
        simp only [add_staff, if_neg hne, hfind, Except.ok.injEq] at h
        subst h
        simp only [step, add_staff, if_neg hne, hfind]
        exact ⟨rfl, ⟨_, rfl, rfl, rfl⟩⟩
    · have hne : sess.role ≠ "owner" := hrole
      simp only [add_staff, if_pos hne] at h
      exact Except.noConfusion h
  · intro sess uid b h
    by_cases hrole : sess.role = "owner"
    · have hne : ¬sess.role ≠ "owner" := by simp [hrole]
      cases hfind : s.users.find? (fun v => v.id == uid) with
      | none =>
        simp only [toggle_staff, if_neg hne, hfind] at h
        exact Except.noConfusion h
      | some user =>
        have hid : user.id = uid := by
          have := List.find?_some hfind
          simpa using this
        by_cases hself : user.id = sess.user_id
        · simp only [toggle_staff, if_neg hne, hfind, if_pos hself] at h
          exact Except.noConfusion h
        · simp only [step, toggle_staff, if_neg hne, hfind, if_neg hself]
          exact ⟨_, rfl, rfl, by simp [hid]⟩
    · have hne : sess.role ≠ "owner" := hrole
      simp only [toggle_staff, if_pos hne] at h
      exact Except.noConfusion h
  · intro op
    cases op with
    | opLead sess d day => exact ⟨_, rfl⟩
    | opTradeIn sess d => exact ⟨_, rfl⟩
    | opSale sess d day => exact ⟨_, rfl⟩
    | opRepair sess d => exact ⟨_, rfl⟩
    | opAddStaff sess d =>
      simp only [step, add_staff]
      split
      · exact ⟨[], by simp⟩
      · split
        · exact ⟨[], by simp⟩
        · exact ⟨_, rfl⟩
    | opToggleStaff sess uid =>
      simp only [step, toggle_staff]
      split
      · exact ⟨[], by simp⟩
      · split
        · exact ⟨[], by simp⟩
        · split
          · exact ⟨[], by simp⟩
          · exact ⟨_, rfl⟩

/-- A sale's stored `profit` follows the `submit_sale` formula. -/
def SaleProfitWF (x : Sale) : Prop :=
  x.profit =
    if x.cost_price = 0 then 0
    else x.total_price - (x.quantity : Rat) * x.cost_price

instance : DecidablePred SaleProfitWF := fun x => by
  unfold SaleProfitWF
  infer_instance

/-- Summing the stored profits while skipping falsy (zero) ones, as the
owner dashboard branch does, equals summing `total − quantity·cost` over
the sales with known (non-zero) cost. -/
theorem profit_sum_eq (l : List Sale) (hw : ∀ x ∈ l, SaleProfitWF x) :
    ((l.filter (fun x => decide (x.profit ≠ 0))).map Sale.profit).sum =
    ((l.filter (fun x => decide (x.cost_price ≠ 0))).map
        (fun x => x.total_price - (x.quantity : Rat) * x.cost_price)).sum := by
  induction l with
  | nil => simp
  | cons a t ih =>
    have ha : SaleProfitWF a := hw a (by simp)
    have ht := ih (fun x hx => hw x (by simp [hx]))
    simp only [ne_eq, decide_not] at ht ⊢
    by_cases hc : a.cost_price = 0
    · have hp : a.profit = 0 := by rw [ha, if_pos hc]
      simp [List.filter_cons, hp, hc, ht]
    · have hp : a.profit = a.total_price - (a.quantity : Rat) * a.cost_price := by
        rw [ha, if_neg hc]
      by_cases hp0 : a.profit = 0
      · have hz : a.total_price - (a.quantity : Rat) * a.cost_price = 0 := by
          rw [← hp]; exact hp0
        simp [List.filter_cons, hp0, hc, hz, ht]
      · have hz : ¬(a.total_price - (a.quantity : Rat) * a.cost_price = 0) := by
          rw [← hp]; exact hp0
        simp [List.filter_cons, hp0, hc, hz, hp, ht]

/-- C4: the dashboard-stats response carries a `profit_today` key exactly
for owner actors (it is absent, not zeroed, for every other role), and for
an owner whose stored sales follow the `submit_sale` profit formula its
value is `Σ (total_price − quantity·cost_price)` over today's sales with
known (non-zero) cost. -/
theorem dashboard_profit_owner_only (s : State) (u : User) (today : Nat) :
    ((dashboard_stats s u today).profit_today ≠ none ↔ u.role = "owner")
  ∧ (u.role = "owner" → (∀ x ∈ s.sales, SaleProfitWF x) →
      (dashboard_stats s u today).profit_today =
        some ((((s.sales.filter (fun x => decide (x.created_day = today))).filter
                  (fun x => decide (x.cost_price ≠ 0))).map
                  (fun x => x.total_price - (x.quantity : Rat) * x.cost_price)).sum)) := by
  constructor
  · by_cases ho : u.role = "owner"
    · simp [dashboard_stats, ho]
    · by_cases hm : u.role = "manager" <;> simp [dashboard_stats, ho, hm]
  · intro ho hw
    simp only [dashboard_stats, if_pos ho]
    refine congrArg some ?_
    exact profit_sum_eq _ (fun x hx => hw x (List.mem_of_mem_filter hx))

/-- C5: for a staff actor the lead list contains exactly the leads they
created and nothing else; owner and manager actors receive the full lead
table. -/
theorem leads_list_scoped (s : State) (u : User) :
    (u.role = "staff" →
      ∀ l : Lead, l ∈ leads_list s u ↔ l ∈ s.leads ∧ l.created_by = u.id)
  ∧ ((u.role = "owner" ∨ u.role = "manager") → leads_list s u = s.leads) := by
  constructor
  · intro hst l
    have hb : u.can_view_all_leads = false := by
      simp [User.can_view_all_leads, hst]
    simp [leads_list, hb, List.mem_filter]
  · intro ho
    have hb : u.can_view_all_leads = true := by
      rcases ho with h | h <;> simp [User.can_view_all_leads, h]
    simp [leads_list, hb]

/-- C6: the capability predicates are pure functions of the role string
with exactly the spec's truth table: view-all (leads and deliveries) and
assign-work hold for owner and manager only; view-financials and
manage-actors hold for owner only; a staff actor holds none of them. -/
theorem capability_truth_table (u : User) :
    (u.can_view_all_leads = true ↔ (u.role = "owner" ∨ u.role = "manager"))
  ∧ (u.can_view_all_deliveries = true ↔ (u.role = "owner" ∨ u.role = "manager"))
  ∧ (u.can_view_profits = true ↔ u.role = "owner")
  ∧ (u.can_manage_staff = true ↔ u.role = "owner")
  ∧ (u.can_assign_leads = true ↔ (u.role = "owner" ∨ u.role = "manager"))
  ∧ (u.role = "staff" →
      u.can_view_all_leads = false ∧ u.can_view_all_deliveries = false ∧
      u.can_view_profits = false ∧ u.can_manage_staff = false ∧
      u.can_assign_leads = false) := by
  refine ⟨?_, ?_, ?_, ?_, ?_, ?_⟩
  · simp [User.can_view_all_leads]
  · simp [User.can_view_all_deliveries]
  · simp [User.can_view_profits]
  · simp [User.can_manage_staff]
  · simp [User.can_assign_leads]
  · intro hst
    simp [User.can_view_all_leads, User.can_view_all_deliveries,
      User.can_view_profits, User.can_manage_staff, User.can_assign_leads, hst]

/-- C7: every sale created by `submit_sale` satisfies
`total_price = quantity · unit_price`, and
`profit = total_price − quantity · cost_price` when the cost price is
known (non-zero) and `profit = 0` when it is not; and no later request
ever removes or alters a stored sale, so the fields are set once at
creation. -/
theorem sale_money_fields (s : State) (sess : Session) (d : SaleInput)
    (day : Nat) :
    ((submit_sale s sess d day).2.total_price =
        ((submit_sale s sess d day).2.quantity : Rat) *
          (submit_sale s sess d day).2.unit_price)
  ∧ ((submit_sale s sess d day).2.cost_price ≠ 0 →
      (submit_sale s sess d day).2.profit =
        (submit_sale s sess d day).2.total_price -
          ((submit_sale s sess d day).2.quantity : Rat) *
            (submit_sale s sess d day).2.cost_price)
  ∧ ((submit_sale s sess d day).2.cost_price = 0 →
      (submit_sale s sess d day).2.profit = 0)
  ∧ (∀ (hf : String → String) (s' : State) (op : Op) (x : Sale),
      x ∈ s'.sales → x ∈ (step hf s' op).sales) := by
  refine ⟨rfl, ?_, ?_, ?_⟩
  · intro hc
    have hc2 : d.cost_price ≠ 0 := hc
    simp only [submit_sale]
    rw [if_neg hc2]
  · intro hc
    have hc2 : d.cost_price = 0 := hc
    simp only [submit_sale]
    rw [if_pos hc2]
  · intro hf s' op x hx
    rcases step_sales hf s' op with he | ⟨y, he, _⟩
    · rw [he]; exact hx
    · rw [he]; exact List.mem_append_left _ hx

/-- C8: every owner-only administrative endpoint (staff management, owner
dashboard, activity log, staff creation, staff activation toggle) answers
a non-owner session with the distinct 403 `ownerForbidden` error and
leaves the store untouched — it is never downgraded to an empty or scoped
result — whereas the lead list endpoint answers a staff actor with a
scoped result set instead of denying access. -/
theorem owner_endpoints_forbid_not_scope (hf : String → String) (s : State)
    (sess : Session) (u : User) (d : StaffInput) (uid page per_page : Nat) :
    (sess.role ≠ "owner" →
        staff_management s sess = .error ownerForbidden
      ∧ owner_dashboard s sess = .error ownerForbidden
      ∧ activity_log_api s sess page per_page = .error ownerForbidden
      ∧ add_staff hf s sess d = (s, .error ownerForbidden)
      ∧ toggle_staff s sess uid = (s, .error ownerForbidden)
      ∧ ownerForbidden.code = 403)
  ∧ (u.role = "staff" →
      leads_list s u = s.leads.filter (fun l => decide (l.created_by = u.id))) := by
  constructor
  · intro hne
    refine ⟨?_, ?_, ?_, ?_, ?_, rfl⟩
    · simp [staff_management, if_pos hne]
    · simp [owner_dashboard, if_pos hne]
    · simp [activity_log_api, if_pos hne]
    · simp [add_staff, if_pos hne]
    · simp [toggle_staff, if_pos hne]
  · intro hst
    have hb : u.can_view_all_leads = false := by
      simp [User.can_view_all_leads, hst]
    simp [leads_list, hb]

/-- Running `toggle_staff`'s flip over the user table moves the user found
for an id to the same position with `is_active` negated. -/
theorem find_flip (l : List User) (uid : Nat) (u : User)
    (h : l.find? (fun v => v.id == uid) = some u) :
    (l.map (fun v => if v.id = uid then { v with is_active := !v.is_active }
        else v)).find? (fun v => v.id == uid) =
      some { u with is_active := !u.is_active } := by
  induction l with
  | nil => simp at h
  | cons a t ih =>
    by_cases ha : a.id = uid
    · rw [List.find?_cons_of_pos t (by simp [ha])] at h
      have hu : a = u := by simpa using h
      subst hu
      simp only [List.map_cons, if_pos ha]
      exact List.find?_cons_of_pos _ (by simp [ha])
    · rw [List.find?_cons_of_neg t (by simp [ha])] at h
      simp only [List.map_cons, if_neg ha]
      rw [List.find?_cons_of_neg _ (by simp [ha])]
      exact ih h

/-- C9: an owner toggling their own id gets the 400
`Cannot deactivate yourself` error with the store (in particular their own
`is_active` flag) unchanged, while toggling any other existing user id
flips exactly that user's `is_active` flag; hence the acting owner can
never deactivate their own account. -/
theorem toggle_staff_no_self_deactivation (s : State) (sess : Session)
    (uid : Nat) (u : User) :
    sess.role = "owner" →
    s.users.find? (fun v => v.id == uid) = some u →
      ((uid = sess.user_id →
          toggle_staff s sess uid = (s, .error ⟨400, "Cannot deactivate yourself"⟩))
      ∧ (uid ≠ sess.user_id →
          (toggle_staff s sess uid).1.users.find? (fun v => v.id == uid) =
            some { u with is_active := !u.is_active }
        ∧ (toggle_staff s sess uid).2 = .ok (!u.is_active))) := by
  intro hrole hfind
  have hne : ¬sess.role ≠ "owner" := by simp [hrole]
  have hid : u.id = uid := by
    have := List.find?_some hfind
    simpa using this
  constructor
  · intro hself
    have hs : u.id = sess.user_id := by rw [hid, hself]
    simp only [toggle_staff, if_neg hne, hfind, if_pos hs]
  · intro hself
    have hs : ¬u.id = sess.user_id := by rw [hid]; exact hself
    constructor
    · simp only [toggle_staff, if_neg hne, hfind, if_neg hs]
      exact find_flip s.users uid u hfind
    · simp only [toggle_staff, if_neg hne, hfind, if_neg hs]

/-- C10: login succeeds exactly when an active user with the submitted
(normalized) username exists and either the non-empty submitted password
hashes to the stored hash or the non-empty submitted PIN equals the stored
PIN — so a correct PIN logs in even alongside a wrong password, and a
deactivated user can never authenticate. Usernames are pairwise distinct
(the column is UNIQUE). -/
theorem login_iff (hashFn : String → String) (users : List User)
    (username password pin : String)
    (huniq : users.Pairwise (fun a b => a.username ≠ b.username)) :
    (login hashFn users username password pin).isSome = true ↔
      ∃ u ∈ users, u.username = username ∧ u.is_active = true ∧
        ((password ≠ "" ∧ u.password_hash = hashFn password) ∨
         (pin ≠ "" ∧ u.pin = some pin)) := by
  cases hfind : users.find? (fun v => v.username == username && v.is_active) with
  | none =>
    rw [login, hfind]
    simp only [Option.isSome_none, Bool.false_eq_true, false_iff]
    rintro ⟨u, hu, hname, hact, -⟩
    have := (List.find?_eq_none.mp hfind) u hu
    simp [hname, hact] at this
  | some v =>
    have hpv := List.find?_some hfind
    have hvmem := List.mem_of_find?_eq_some hfind
    have hvname : v.username = username := by
      simp only [Bool.and_eq_true, beq_iff_eq] at hpv
      exact hpv.1
    have hvact : v.is_active = true := by
      simp only [Bool.and_eq_true] at hpv
      exact hpv.2
    rw [login, hfind]
    constructor
    · intro hsome
      refine ⟨v, hvmem, hvname, hvact, ?_⟩
      by_cases h1 : password ≠ "" ∧ v.password_hash = hashFn password
      · exact Or.inl h1
      · by_cases h2 : pin ≠ "" ∧ v.pin = some pin
        · exact Or.inr h2
        · simp only [if_neg h1, if_neg h2, if_neg (Bool.false_ne_true)] at hsome
          exact absurd hsome (by simp)
    · rintro ⟨u, hu, hname, hact, hcred⟩
      have huv : u = v := by
        by_contra hneq
        exact (huniq.forall (fun a b hab => (Ne.symm hab)) hu hvmem hneq)
          (hname.trans hvname.symm)
      subst huv
      by_cases h1 : password ≠ "" ∧ u.password_hash = hashFn password
      · simp [if_pos h1]
      · rcases hcred with h | h2
        · exact absurd h h1
        · simp [if_neg h1, if_pos h2]

/-! ### Concrete fixtures (mirroring the seeded users) and witnesses -/

def wHash : String → String := fun p => p ++ "#h"

def wOwnerU : User :=
  { id := 1, username := "owner", password_hash := "owner123#h"
  , pin := some "1234", name := some "Shop Owner", phone := none
  , role := "owner", is_active := true }

def wStaffU : User :=
  { id := 3, username := "staff", password_hash := "staff123#h"
  , pin := some "0000", name := some "Sales Staff", phone := none
  , role := "staff", is_active := true }

def wSessOwner : Session :=
  { user_id := 1, name := some "Shop Owner", role := "owner", ip := none }

def wSessStaff : Session :=
  { user_id := 3, name := some "Sales Staff", role := "staff", ip := none }

def wTIn : TradeInInput :=
  { brand := some "Apple", model := some "iPhone 15", storage := some "128GB"
  , color := none, imei := none, serial_number := none
  , customer_name := some "Ada", customer_phone := some "555"
  , customer_email := none, base_value := 100, condition_score := 90
  , calculated_offer := 80 }

def wSIn : SaleInput :=
  { product_id := none, other_product_name := some "Case", quantity := 2
  , unit_price := 10, cost_price := 4, payment_method := some "cash" }

def wLIn : LeadInput :=
  { customer_name := some "Carol", customer_phone := some "557"
  , customer_email := none, interest := some "iPhone 16"
  , source := some "walk-in", notes := none }

def wStIn : StaffInput :=
  { username := "newguy", password := "pw1", pin := some "1111"
  , name := some "New Guy", phone := none, role := "staff" }

def wState : State := { initState with users := [wOwnerU, wStaffU] }

def wSaleState : State := (submit_sale initState wSessStaff wSIn 7).1

def wLeadState : State := (add_lead initState wSessStaff wLIn 7).1

def wLead : Lead := (add_lead initState wSessStaff wLIn 7).2

theorem business_numbers_sequential_w :
    0 < (run wHash initState [Op.opTradeIn wSessStaff wTIn]).tradeins.length
  ∧ ((run wHash initState [Op.opTradeIn wSessStaff wTIn]).tradeins.get
        ⟨0, by decide⟩).trade_in_number = "TI-" ++ zfill 5 (Nat.repr (10001 + 0)) :=
  ⟨by decide,
   (business_numbers_sequential wHash
      [Op.opTradeIn wSessStaff wTIn]).2.2.2.2.1 0 (by decide)⟩

theorem invalid_transition_rejected_w :
    ¬(tiTable TIStatus.approved TIStatus.pending = true ∨
        TIStatus.approved = TIStatus.pending)
  ∧ transitionEntity tiTable (TIStatus.approved, 5) TIStatus.pending 9 =
      ((TIStatus.approved, 5), some "InvalidTransition") :=
  ⟨by decide,
   invalid_transition_rejected.1 TIStatus.approved 5 TIStatus.pending 9 (by decide)⟩

theorem audit_one_event_per_mutation_w :
    (toggle_staff wState wSessOwner 3).2 = .ok false
  ∧ ∃ e : Activity,
      (step wHash wState (Op.opToggleStaff wSessOwner 3)).activity_log =
        wState.activity_log ++ [e]
    ∧ e.entity_type = some "user" ∧ e.entity_id = some 3 :=
  ⟨by rfl,
   (audit_one_event_per_mutation wHash wState).2.2.2.2.2.1 wSessOwner 3 false
     (by rfl)⟩

theorem dashboard_profit_owner_only_w :
    wOwnerU.role = "owner"
  ∧ (∀ x ∈ wSaleState.sales, SaleProfitWF x)
  ∧ (dashboard_stats wSaleState wOwnerU 7).profit_today =
      some ((((wSaleState.sales.filter
                  (fun x => decide (x.created_day = 7))).filter
                  (fun x => decide (x.cost_price ≠ 0))).map
                  (fun x => x.total_price - (x.quantity : Rat) * x.cost_price)).sum) :=
  by
  have hWF : ∀ x ∈ wSaleState.sales, SaleProfitWF x := by
    intro x hx
    simp only [wSaleState, submit_sale, log_activity, initState,
      List.nil_append, List.mem_singleton] at hx
    subst hx
    rfl
  exact ⟨rfl, hWF, (dashboard_profit_owner_only wSaleState wOwnerU 7).2 rfl hWF⟩

theorem leads_list_scoped_w :
    wStaffU.role = "staff"
  ∧ (wLead ∈ leads_list wLeadState wStaffU ↔
      wLead ∈ wLeadState.leads ∧ wLead.created_by = wStaffU.id) :=
  ⟨rfl, (leads_list_scoped wLeadState wStaffU).1 rfl wLead⟩

theorem capability_truth_table_w :
    wStaffU.role = "staff"
  ∧ (wStaffU.can_view_all_leads = false ∧
     wStaffU.can_view_all_deliveries = false ∧
     wStaffU.can_view_profits = false ∧
     wStaffU.can_manage_staff = false ∧
     wStaffU.can_assign_leads = false) :=
  ⟨rfl, (capability_truth_table wStaffU).2.2.2.2.2 rfl⟩

theorem sale_money_fields_w :
    (submit_sale initState wSessStaff wSIn 7).2.cost_price ≠ 0
  ∧ (submit_sale initState wSessStaff wSIn 7).2.profit =
      (submit_sale initState wSessStaff wSIn 7).2.total_price -
        ((submit_sale initState wSessStaff wSIn 7).2.quantity : Rat) *
          (submit_sale initState wSessStaff wSIn 7).2.cost_price :=
  ⟨by decide, (sale_money_fields initState wSessStaff wSIn 7).2.1 (by decide)⟩

theorem owner_endpoints_forbid_not_scope_w :
    wSessStaff.role ≠ "owner"
  ∧ staff_management wState wSessStaff = .error ownerForbidden :=
  ⟨by decide,
   ((owner_endpoints_forbid_not_scope wHash wState wSessStaff wStaffU wStIn
       3 1 50).1 (by decide)).1⟩

theorem toggle_staff_no_self_deactivation_w :
    wState.users.find? (fun v => v.id == 1) = some wOwnerU
  ∧ toggle_staff wState wSessOwner 1 =
      (wState, .error ⟨400, "Cannot deactivate yourself"⟩) :=
  ⟨by decide,
   ((toggle_staff_no_self_deactivation wState wSessOwner 1 wOwnerU) rfl
       (by decide)).1 rfl⟩

theorem login_iff_w :
    ([wOwnerU, wStaffU].Pairwise (fun a b => a.username ≠ b.username))
  ∧ ((login wHash [wOwnerU, wStaffU] "staff" "wrongpw" "0000").isSome = true ↔
      ∃ u ∈ [wOwnerU, wStaffU], u.username = "staff" ∧ u.is_active = true ∧
        (("wrongpw" ≠ "" ∧ u.password_hash = wHash "wrongpw") ∨
         ("0000" ≠ "" ∧ u.pin = some "0000"))) :=
  ⟨by decide,
   login_iff wHash [wOwnerU, wStaffU] "staff" "wrongpw" "0000" (by decide)⟩

end PhoneShop
